import Mathlib

/-!
Shallow embedding of the bulk student-import pipeline of `app.py`
(`importar_estudiantes`) together with the data model of `models.py`.

Spreadsheet cells are modelled by `Cell := Option String`: `none` stands for a
blank cell, which pandas reads as the float NaN, and `some s` for a cell whose
Python `str()` form is `s`.  `pyStr` reproduces Python's `str()` on such a
value: `str(nan) = "nan"`.  A row is the association list of (normalized)
column name to cell, mirroring `row.get(col, default)` on a pandas Series.

Date parsing (`pd.to_datetime`) is outside the embedding: no claim concerns
the `fecha_nacimiento` field, and the import loop swallows its failures.
-/

namespace SGC

/-- A spreadsheet cell: `none` is a blank cell (pandas NaN). -/
abbrev Cell := Option String

/-- Python `str()` applied to a cell value: `str(nan)` is `"nan"`. -/
def pyStr : Cell → String
  | none => "nan"
  | some s => s

/-- One spreadsheet row: association list from normalized column name to cell. -/
abbrev Row := List (String × Cell)

/-- `str(row.get(col, dflt))`: the stringified cell if the column is present
in the row's index, the default string otherwise. -/
def pyGet (r : Row) (col dflt : String) : String :=
  match r.lookup col with
  | some c => pyStr c
  | none => dflt

/-- Python's `str.upper()`, character by character (the data here is ASCII). -/
def pyUpper (s : String) : String :=
  ⟨s.data.map Char.toUpper⟩

/-- Python's `str.strip()`: drop whitespace from both ends. -/
def pyStrip (s : String) : String :=
  ⟨((s.data.dropWhile Char.isWhitespace).reverse.dropWhile Char.isWhitespace).reverse⟩

/-- Python's `s.split('.')[0]`: the characters before the first dot
(`''.split('.')[0]` is `''`, and a dot-free string is returned whole). -/
def pySplitDotHead (s : String) : String :=
  ⟨s.data.takeWhile (fun c => c != Char.ofNat 46)⟩

/-- `str(row.get('NUMERO_DOC', '')).split('.')[0].strip()` from app.py. -/
def ndocOf (r : Row) : String :=
  pyStrip (pySplitDotHead (pyGet r "NUMERO_DOC" ""))

/-- `str(row.get('TIPO_DOC', 'V')).strip().upper()` from app.py. -/
def tipoOf (r : Row) : String :=
  pyUpper (pyStrip (pyGet r "TIPO_DOC" "V"))

/-- `str(row.get('NOMBRE_APELLIDO', '')).strip().upper()` from app.py. -/
def nombreOf (r : Row) : String :=
  pyUpper (pyStrip (pyGet r "NOMBRE_APELLIDO" ""))

/-- `str(row.get('CODIGO_ALDEA', '')).strip().upper()` from app.py. -/
def caldeaOf (r : Row) : String :=
  pyUpper (pyStrip (pyGet r "CODIGO_ALDEA" ""))

/-- `str(row.get('NOMBRE_CARRERA', '')).strip().upper()` from app.py. -/
def ncarreraOf (r : Row) : String :=
  pyUpper (pyStrip (pyGet r "NOMBRE_CARRERA" ""))

/-- `str(row.get('TRAMO', '')).strip().upper()` from app.py. -/
def ntramoOf (r : Row) : String :=
  pyUpper (pyStrip (pyGet r "TRAMO" ""))

/-- `str(row.get('PERIODO', '')).strip().upper()` from app.py. -/
def nperiodoOf (r : Row) : String :=
  pyUpper (pyStrip (pyGet r "PERIODO" ""))

/-- `str(row.get('CORREO', '')).strip()` from app.py. -/
def correoOf (r : Row) : String :=
  pyStrip (pyGet r "CORREO" "")

/-- `str(row.get('TELEFONO', '')).strip()` from app.py. -/
def telefonoOf (r : Row) : String :=
  pyStrip (pyGet r "TELEFONO" "")

/-- `str(row.get('GENERO', '')).strip().upper()` from app.py. -/
def generoOf (r : Row) : String :=
  pyUpper (pyStrip (pyGet r "GENERO" ""))

/-- The `nombre_apellido`/`genero` property setters of `models.Estudiante`:
`value.upper() if value else None`. -/
def setUpperOpt (v : String) : Option String :=
  if v = "" then none else some (pyUpper v)

/-- `models.AldeaUniversitaria`: only the columns the import touches. -/
structure AldeaUniversitaria where
  id : Nat
  codigo : String
deriving DecidableEq, Repr

/-- `models.Carrera`: only the columns the import touches. -/
structure Carrera where
  id : Nat
  nombre : String
deriving DecidableEq, Repr

/-- `models.Tramo`. -/
structure Tramo where
  id : Nat
  nombre : String
deriving DecidableEq, Repr

/-- `models.PeriodoAcademico`. -/
structure PeriodoAcademico where
  id : Nat
  nombre : String
deriving DecidableEq, Repr

/-- `models.Estudiante` as built by the import handler.  `nombre_apellido`
and `genero` go through property setters mapping `""` to `None` and
uppercasing; `fecha_nacimiento` is omitted (no claim concerns it). -/
structure Estudiante where
  tipo_documento : String
  numero_documento : String
  nombre_apellido : Option String
  correo : String
  telefono : String
  genero : Option String
  carrera_id : Nat
  aldea_id : Nat
  tramo_id : Nat
  periodo_id : Nat
  cargado_por : String
deriving DecidableEq, Repr

/-- The persistent store: the four reference catalogs plus the student table. -/
structure DB where
  aldeas : List AldeaUniversitaria
  carreras : List Carrera
  tramos : List Tramo
  periodos : List PeriodoAcademico
  estudiantes : List Estudiante
deriving DecidableEq, Repr

/-- Typed row-rejection reasons, one per `errores.append` site of the row
loop in app.py. -/
inductive RowErr where
  | camposFaltantes
  | aldeaNoExiste (c : String)
  | carreraNoExiste (c : String)
  | tramoNoValido (c : String)
  | periodoNoValido (c : String)
  | yaExiste (ndoc : String)
deriving DecidableEq, Repr

/-- The exact diagnostic strings of app.py, with the 1-based Excel line. -/
def renderErr (linea : Nat) : RowErr → String
  | .camposFaltantes =>
      "Fila " ++ toString linea ++ ": Faltan datos obligatorios (Cédula, Aldea o Carrera)."
  | .aldeaNoExiste c =>
      "Fila " ++ toString linea ++ ": Código de Aldea \x27" ++ c ++ "\x27 no existe."
  | .carreraNoExiste c =>
      "Fila " ++ toString linea ++ ": Carrera \x27" ++ c ++ "\x27 no existe en el catálogo."
  | .tramoNoValido c =>
      "Fila " ++ toString linea ++ ": Tramo \x27" ++ c ++ "\x27 no es válido. Verifique la lista."
  | .periodoNoValido c =>
      "Fila " ++ toString linea ++ ": Período \x27" ++ c ++ "\x27 no es válido."
  | .yaExiste ndoc =>
      "Fila " ++ toString linea ++ ": Estudiante " ++ ndoc ++ " ya existe."

/-- Decidable equality on fallible results, for concrete evaluation. -/
instance exceptDecEq {ε α : Type} [DecidableEq ε] [DecidableEq α] :
    DecidableEq (Except ε α) := fun x y =>
  match x, y with
  | .error a, .error b =>
    if h : a = b then .isTrue (by rw [h]) else .isFalse (by simp [h])
  | .error _, .ok _ => .isFalse (by simp)
  | .ok _, .error _ => .isFalse (by simp)
  | .ok a, .ok b =>
    if h : a = b then .isTrue (by rw [h]) else .isFalse (by simp [h])

/-- The resolved entities of a row that survived the first five checks. -/
structure Found where
  aldea : AldeaUniversitaria
  carrera : Carrera
  tramo : Tramo
  periodo : PeriodoAcademico
deriving DecidableEq, Repr

/-- The required-field presence check and the four catalog lookups of one row,
in the source's order: blank-field check, then
`AldeaUniversitaria.query.filter_by(_codigo=caldea)`,
`Carrera.query.filter_by(_nombre=ncarrera)`,
`Tramo.query.filter_by(nombre=ntramo)`,
`PeriodoAcademico.query.filter_by(nombre=nperiodo)`, short-circuiting at the
first failure. -/
def checkRow (db : DB) (r : Row) : Except RowErr Found :=
  if ndocOf r = "" ∨ caldeaOf r = "" ∨ ncarreraOf r = "" then
    .error .camposFaltantes
  else
    match db.aldeas.find? (fun a => a.codigo == caldeaOf r) with
    | none => .error (.aldeaNoExiste (caldeaOf r))
    | some aldea =>
      match db.carreras.find? (fun c => c.nombre == ncarreraOf r) with
      | none => .error (.carreraNoExiste (ncarreraOf r))
      | some carrera =>
        match db.tramos.find? (fun t => t.nombre == ntramoOf r) with
        | none => .error (.tramoNoValido (ntramoOf r))
        | some tramo =>
          match db.periodos.find? (fun p => p.nombre == nperiodoOf r) with
          | none => .error (.periodoNoValido (nperiodoOf r))
          | some per => .ok ⟨aldea, carrera, tramo, per⟩

/-- The `Estudiante(...)` constructor call of app.py, given the resolved
catalog ids. -/
def mkEstudiante (r : Row) (carreraId aldeaId tramoId periodoId : Nat) : Estudiante :=
  { tipo_documento := tipoOf r
    numero_documento := ndocOf r
    nombre_apellido := setUpperOpt (nombreOf r)
    correo := correoOf r
    telefono := telefonoOf r
    genero := setUpperOpt (generoOf r)
    carrera_id := carreraId
    aldea_id := aldeaId
    tramo_id := tramoId
    periodo_id := periodoId
    cargado_por := "CARGA_MASIVA" }

/-- One full row of the import loop: the five checks of `checkRow`, then the
duplicate query `Estudiante.query.filter_by(numero_documento=ndoc,
tipo_documento=tipo_doc)` against the students visible to the session
(`vis`: committed rows plus the ones staged so far, per autoflush), then the
`Estudiante(...)` construction. -/
def processRow (db : DB) (vis : List Estudiante) (r : Row) : Except RowErr Estudiante :=
  match checkRow db r with
  | .error e => .error e
  | .ok f =>
    match vis.find? (fun s =>
        s.numero_documento == ndocOf r && s.tipo_documento == tipoOf r) with
    | some _ => .error (.yaExiste (ndocOf r))
    | none => .ok (mkEstudiante r f.carrera.id f.aldea.id f.tramo.id f.periodo.id)

/-- Flash-message categories of the handler (`success`, `warning`, `danger`). -/
inductive FlashCat where
  | success
  | warning
  | danger
deriving DecidableEq, Repr

/-- A flash message: category and rendered text. -/
abbrev Flash := FlashCat × String

/-- An uploaded spreadsheet: raw header names and the data rows.  Each row's
keys are the normalized column names (pandas indexes every row of a
DataFrame by the same normalized columns). -/
structure XFile where
  cols : List String
  rows : List Row
deriving DecidableEq, Repr

/-- `str(c).strip().upper()` applied to each header, from app.py. -/
def normHeader (c : String) : String :=
  pyUpper (pyStrip c)

/-- The required header columns of app.py. -/
def requeridos : List String :=
  ["NUMERO_DOC", "NOMBRE_CARRERA", "CODIGO_ALDEA", "TRAMO", "PERIODO"]

/-- `[col for col in requeridos if col not in df.columns]` after header
normalization. -/
def faltantesOf (f : XFile) : List String :=
  requeridos.filter (fun col => !((f.cols.map normHeader).contains col))

/-- `f'⛔ Faltan columnas en el Excel: {", ".join(faltantes)}'`. -/
def faltanMsg (faltantes : List String) : String :=
  "⛔ Faltan columnas en el Excel: " ++ String.intercalate ", " faltantes

/-- `errores[:10]`: the diagnostics actually shown. -/
def shownErrors (errores : List String) : List String :=
  errores.take 10

/-- The overflow notice appended when more than 10 rows failed:
`f"<br>... y {len(errores)-10} errores más."` (without the leading tag). -/
def overflowNote (errores : List String) : Option String :=
  if 10 < errores.length then
    some ("... y " ++ toString (errores.length - 10) ++ " errores más.")
  else none

/-- The body of the warning flash: `"<br>".join(errores[:10])` plus the
overflow notice. -/
def errBody (errores : List String) : String :=
  String.intercalate "<br>" (shownErrors errores) ++
    (match overflowNote errores with
     | some s => "<br>" ++ s
     | none => "")

/-- `f'⚠️ Se encontraron errores en {len(errores)} filas:<br>{msg}'`. -/
def warnMsg (errores : List String) : String :=
  "⚠️ Se encontraron errores en " ++ toString errores.length ++ " filas:<br>" ++
    errBody errores

/-- `f'✅ Importación finalizada. Registrados: {exitos}.'`. -/
def okMsg (exitos : Nat) : String :=
  "✅ Importación finalizada. Registrados: " ++ toString exitos ++ "."

/-- `f'⛔ Error crítico procesando archivo: {e}'`. -/
def criticoMsg (e : String) : String :=
  "⛔ Error crítico procesando archivo: " ++ e

/-- The warning flash emitted when the error list is nonempty. -/
def errFlashes (errores : List String) : List Flash :=
  if errores.isEmpty then [] else [(FlashCat.warning, warnMsg errores)]

/-- The row loop of app.py.  `idx` is the 0-based DataFrame index (the Excel
line is `idx + 2`); `exitos`, `errores` and `staged` are the loop
accumulators (`staged` is the session's pending `db.session.add` inserts,
visible to the duplicate query through autoflush). -/
def importLoop (db : DB) (rows : List Row) (idx exitos : Nat)
    (errores : List String) (staged : List Estudiante) :
    Nat × List String × List Estudiante :=
  match rows with
  | [] => (exitos, errores, staged)
  | r :: rs =>
    match processRow db (db.estudiantes ++ staged) r with
    | .error e =>
      importLoop db rs (idx + 1) exitos (errores ++ [renderErr (idx + 2) e]) staged
    | .ok st =>
      importLoop db rs (idx + 1) (exitos + 1) errores (staged ++ [st])

/-- The outcome of one POST of `importar_estudiantes`: the final loop
counters, the resulting persistent store, and the flash messages shown. -/
structure ImportResult where
  exitos : Nat
  errores : List String
  db : DB
  flashes : List Flash
deriving DecidableEq, Repr

/-- The import handler of app.py on an already-parsed spreadsheet.
`commitErr = none` means `db.session.commit()` succeeds; `commitErr = some m`
means it raises with message `m`, which the outer `except` turns into a
single critical flash (skipping both the success flash and the error
summary).  The commit is attempted only when `exitos > 0`. -/
def importFile (db : DB) (f : XFile) (commitErr : Option String) : ImportResult :=
  if (faltantesOf f).isEmpty then
    if 0 < (importLoop db f.rows 0 0 [] []).1 then
      match commitErr with
      | some m =>
        { exitos := (importLoop db f.rows 0 0 [] []).1
          errores := (importLoop db f.rows 0 0 [] []).2.1
          db := db
          flashes := [(FlashCat.danger, criticoMsg m)] }
      | none =>
        { exitos := (importLoop db f.rows 0 0 [] []).1
          errores := (importLoop db f.rows 0 0 [] []).2.1
          db := { db with
                  estudiantes := db.estudiantes ++ (importLoop db f.rows 0 0 [] []).2.2 }
          flashes := (FlashCat.success, okMsg (importLoop db f.rows 0 0 [] []).1)
            :: errFlashes (importLoop db f.rows 0 0 [] []).2.1 }
    else
      { exitos := (importLoop db f.rows 0 0 [] []).1
        errores := (importLoop db f.rows 0 0 [] []).2.1
        db := db
        flashes := errFlashes (importLoop db f.rows 0 0 [] []).2.1 }
  else
    { exitos := 0, errores := [], db := db
      flashes := [(FlashCat.danger, faltanMsg (faltantesOf f))] }

/-! ## Row-level lemmas -/

/-- The first-five-checks result ignores the student table and only reads
the four catalogs. -/
theorem checkRow_eq_of_catalogs (db db' : DB) (r : Row)
    (ha : db'.aldeas = db.aldeas) (hc : db'.carreras = db.carreras)
    (ht : db'.tramos = db.tramos) (hp : db'.periodos = db.periodos) :
    checkRow db' r = checkRow db r := by
  unfold checkRow
  rw [ha, hc, ht, hp]

/-- `checkRow` reports missing required fields exactly when one of the three
normalized required fields is the empty string. -/
theorem checkRow_campos_iff (db : DB) (r : Row) :
    checkRow db r = Except.error RowErr.camposFaltantes ↔
      (ndocOf r = "" ∨ caldeaOf r = "" ∨ ncarreraOf r = "") := by
  unfold checkRow
  split
  · next hc => exact iff_of_true rfl hc
  · next hc =>
    refine iff_of_false ?_ hc
    intro h
    split at h
    · simp at h
    · split at h
      · simp at h
      · split at h
        · simp at h
        · split at h
          · simp at h
          · simp at h

/-- `processRow` reports missing required fields exactly when `checkRow`
does. -/
theorem processRow_campos_iff (db : DB) (vis : List Estudiante) (r : Row) :
    processRow db vis r = Except.error RowErr.camposFaltantes ↔
      checkRow db r = Except.error RowErr.camposFaltantes := by
  unfold processRow
  cases hc : checkRow db r with
  | error e => simp
  | ok f =>
    cases hf : vis.find? (fun s =>
        s.numero_documento == ndocOf r && s.tipo_documento == tipoOf r) with
    | some s => simp [hf]
    | none => simp [hf]

/-- A row accepted by `processRow` produced exactly the `Estudiante(...)`
constructor call on that row, and passed the first five checks. -/
theorem processRow_ok_shape (db : DB) (vis : List Estudiante) (r : Row)
    (e : Estudiante) (h : processRow db vis r = Except.ok e) :
    (checkRow db r).isOk = true ∧
      ∃ fnd : Found,
        checkRow db r = Except.ok fnd ∧
        e = mkEstudiante r fnd.carrera.id fnd.aldea.id fnd.tramo.id fnd.periodo.id := by
  unfold processRow at h
  cases hc : checkRow db r with
  | error er => rw [hc] at h; cases h
  | ok fnd =>
    rw [hc] at h
    cases hf : vis.find? (fun s =>
        s.numero_documento == ndocOf r && s.tipo_documento == tipoOf r) with
    | some s => rw [hf] at h; cases h
    | none =>
      rw [hf] at h
      refine ⟨rfl, fnd, rfl, ?_⟩
      exact (Except.ok.inj h).symm

/-- A row that passed the first five checks is rejected as `yaExiste`
exactly when some visible student carries its document number and type. -/
theorem processRow_yaExiste_iff (db : DB) (vis : List Estudiante) (r : Row)
    (fnd : Found) (h : checkRow db r = Except.ok fnd) :
    processRow db vis r = Except.error (RowErr.yaExiste (ndocOf r)) ↔
      ∃ s ∈ vis, s.numero_documento = ndocOf r ∧ s.tipo_documento = tipoOf r := by
  unfold processRow
  rw [h]
  cases hf : vis.find? (fun s =>
      s.numero_documento == ndocOf r && s.tipo_documento == tipoOf r) with
  | some s =>
    refine iff_of_true rfl ?_
    have hmem := List.mem_of_find?_eq_some hf
    have hp := List.find?_some hf
    simp only [Bool.and_eq_true, beq_iff_eq] at hp
    exact ⟨s, hmem, hp.1, hp.2⟩
  | none =>
    refine iff_of_false (by simp) ?_
    rintro ⟨s, hs, h1, h2⟩
    have := List.find?_eq_none.mp hf s hs
    simp [h1, h2] at this

/-- If a visible student matches the row's document number and type and the
five checks pass, the row is rejected as a duplicate. -/
theorem processRow_dup (db : DB) (vis : List Estudiante) (r : Row)
    (fnd : Found) (h : checkRow db r = Except.ok fnd)
    (hs : ∃ s ∈ vis, s.numero_documento = ndocOf r ∧ s.tipo_documento = tipoOf r) :
    processRow db vis r = Except.error (RowErr.yaExiste (ndocOf r)) :=
  (processRow_yaExiste_iff db vis r fnd h).mpr hs

/-! ## Concrete fixtures for witnesses and counterexamples -/

/-- A base catalog store used by the concrete witnesses. -/
def dbW : DB :=
  { aldeas := [⟨1, "A1"⟩], carreras := [⟨2, "MEDICINA"⟩],
    tramos := [⟨3, "I"⟩], periodos := [⟨4, "2024-I"⟩], estudiantes := [] }

/-- A fully valid row; lower-case cells exercise normalization. -/
def rowW : Row :=
  [("NUMERO_DOC", some "123"), ("CODIGO_ALDEA", some "A1"),
   ("NOMBRE_CARRERA", some "medicina"), ("TRAMO", some "i"),
   ("PERIODO", some "2024-i"), ("TIPO_DOC", some "v")]

/-- The student `rowW` creates. -/
def stW : Estudiante := mkEstudiante rowW 2 1 3 4

/-- The resolved catalog bundle of `rowW` against `dbW`. -/
def fndW : Found := ⟨⟨1, "A1"⟩, ⟨2, "MEDICINA"⟩, ⟨3, "I"⟩, ⟨4, "2024-I"⟩⟩

/-- A student with the same document number as `rowW` but document type E. -/
def stE : Estudiante := { stW with tipo_documento := "E" }

/-- The store holding only `stE`. -/
def dbC1 : DB := { dbW with estudiantes := [stE] }

/-- The store holding only `stW`. -/
def dbC1b : DB := { dbW with estudiantes := [stW] }

/-- A row whose village-code cell is blank (pandas NaN). -/
def rowC4 : Row :=
  [("NUMERO_DOC", some "123"), ("CODIGO_ALDEA", (none : Cell)),
   ("NOMBRE_CARRERA", some "medicina"), ("TRAMO", some "i"),
   ("PERIODO", some "2024-i")]

/-- A row whose village code and program name both miss the catalogs. -/
def rowC5 : Row :=
  [("NUMERO_DOC", some "123"), ("CODIGO_ALDEA", some "ZZ"),
   ("NOMBRE_CARRERA", some "FILOSOFIA"), ("TRAMO", some "i"),
   ("PERIODO", some "2024-i")]

/-- A valid row whose five optional cells are all blank (pandas NaN). -/
def rowC10 : Row :=
  [("NUMERO_DOC", some "123"), ("CODIGO_ALDEA", some "A1"),
   ("NOMBRE_CARRERA", some "medicina"), ("TRAMO", some "i"),
   ("PERIODO", some "2024-i"), ("TIPO_DOC", (none : Cell)),
   ("NOMBRE_APELLIDO", (none : Cell)), ("GENERO", (none : Cell)),
   ("CORREO", (none : Cell)), ("TELEFONO", (none : Cell))]

/-- The student `rowC10` creates. -/
def stC10 : Estudiante := mkEstudiante rowC10 2 1 3 4

/-! ## Claims C1, C4, C5, C8, C10 -/

/-- C1, counterexample: the store contains a student with document number
123 (type E); the row carries number 123 with type V, passes the required
check and all four lookups, yet the validator does not reject it as a
duplicate — the duplicate query filters on the (number, type) pair, not on
the number alone as the claim states. -/
theorem c1_counterexample :
    stE.numero_documento = "123" ∧ stE ∈ dbC1.estudiantes ∧
    ndocOf rowW = "123" ∧ (checkRow dbC1 rowW).isOk = true ∧
    processRow dbC1 dbC1.estudiantes rowW ≠ Except.error (RowErr.yaExiste "123") := by
  decide

/-- C1 (amended): for a row that passes the required-field check and all
four catalog lookups, the validator rejects it as "student already exists"
if and only if the visible student store contains a student with the same
document number AND the same document type. -/
theorem c1_theorem (db : DB) (vis : List Estudiante) (r : Row) (fnd : Found)
    (h : checkRow db r = Except.ok fnd) :
    processRow db vis r = Except.error (RowErr.yaExiste (ndocOf r)) ↔
      ∃ s ∈ vis, s.numero_documento = ndocOf r ∧ s.tipo_documento = tipoOf r :=
  processRow_yaExiste_iff db vis r fnd h

/-- C1, witness: with `stW` (number 123, type V) in the store, the same row
is rejected as a duplicate. -/
theorem c1_witness :
    processRow dbC1b dbC1b.estudiantes rowW =
      Except.error (RowErr.yaExiste (ndocOf rowW)) :=
  (c1_theorem dbC1b dbC1b.estudiantes rowW fndW (by decide)).mpr
    ⟨stW, by decide, by decide, by decide⟩

/-- C4, counterexample: a blank village-code cell under a present column is
not rejected as "missing required fields": `str(nan)` normalizes to the
non-empty literal NAN, the presence check passes, and the village catalog
lookup runs (and reports village-not-found for the literal NAN). -/
theorem c4_counterexample :
    rowC4.lookup "CODIGO_ALDEA" = some none ∧
    caldeaOf rowC4 = "NAN" ∧
    processRow dbW [] rowC4 = Except.error (RowErr.aldeaNoExiste "NAN") := by
  decide

/-- C4 (amended): a row is rejected with the missing-required-fields
diagnostic (and no catalog lookup is performed) exactly when one of the
normalized document number, village code or program name is the empty
string; a blank cell under a present column normalizes to the non-empty
literal "nan"/"NAN" and proceeds to the catalog lookups. -/
theorem c4_theorem (db : DB) (vis : List Estudiante) (r : Row) :
    processRow db vis r = Except.error RowErr.camposFaltantes ↔
      (ndocOf r = "" ∨ caldeaOf r = "" ∨ ncarreraOf r = "") :=
  (processRow_campos_iff db vis r).trans (checkRow_campos_iff db r)

/-- C5: validation is ordered required-fields, village, program, stage,
period, duplicate, short-circuiting at the first failure; in particular a
row passing the required-field check on which both the village lookup and
the program lookup fail reports the village-not-found diagnostic. -/
theorem c5_theorem (db : DB) (vis : List Estudiante) (r : Row)
    (hreq : ¬(ndocOf r = "" ∨ caldeaOf r = "" ∨ ncarreraOf r = ""))
    (ha : db.aldeas.find? (fun a => a.codigo == caldeaOf r) = none)
    (_hc : db.carreras.find? (fun c => c.nombre == ncarreraOf r) = none) :
    processRow db vis r = Except.error (RowErr.aldeaNoExiste (caldeaOf r)) := by
  unfold processRow checkRow
  rw [if_neg hreq, ha]

/-- C5, witness: a row referencing village ZZ and program FILOSOFIA, both
absent from the catalogs, reports the village failure. -/
theorem c5_witness :
    processRow dbW [] rowC5 = Except.error (RowErr.aldeaNoExiste (caldeaOf rowC5)) :=
  c5_theorem dbW [] rowC5 (by decide) (by decide) (by decide)

/-- C8 (amended): the normalized document type is "V" only when the
TIPO_DOC column is absent from the file (the `row.get` default); a blank
cell under a present TIPO_DOC column stringifies to `nan` and normalizes to
"NAN", and a non-blank cell is stringified, stripped and uppercased. -/
theorem c8_theorem (r : Row) :
    (r.lookup "TIPO_DOC" = none → tipoOf r = "V") ∧
    (r.lookup "TIPO_DOC" = some none → tipoOf r = "NAN") ∧
    (∀ s : String, r.lookup "TIPO_DOC" = some (some s) →
      tipoOf r = pyUpper (pyStrip s)) := by
  refine ⟨?_, ?_, ?_⟩
  · intro h
    unfold tipoOf pyGet
    rw [h]
    decide
  · intro h
    unfold tipoOf pyGet
    rw [h]
    decide
  · intro s h
    unfold tipoOf pyGet
    rw [h]
    rfl

/-- C8, counterexample: a row whose TIPO_DOC cell is blank gets normalized
document type "NAN", not the claimed default "V". -/
theorem c8_counterexample :
    [(("TIPO_DOC" : String), (none : Cell))].lookup "TIPO_DOC" = some none ∧
    tipoOf [(("TIPO_DOC" : String), (none : Cell))] = "NAN" ∧
    tipoOf [(("TIPO_DOC" : String), (none : Cell))] ≠ "V" := by
  decide

/-- C8, witness: the three branches of the amended claim at concrete rows —
column absent gives "V", blank cell gives "NAN", a non-blank cell is
stripped and uppercased. -/
theorem c8_witness :
    tipoOf ([] : Row) = "V" ∧
    tipoOf [(("TIPO_DOC" : String), (none : Cell))] = "NAN" ∧
    tipoOf [(("TIPO_DOC" : String), some " v ")] = "V" := by
  refine ⟨(c8_theorem _).1 (by decide), (c8_theorem _).2.1 (by decide), ?_⟩
  have h := (c8_theorem [(("TIPO_DOC" : String), some " v ")]).2.2 " v " (by decide)
  rw [h]
  decide

/-- C10: when an optional column is present but the cell is blank, the
literal "NAN" (for the uppercased fields TIPO_DOC, NOMBRE_APELLIDO, GENERO)
or "nan" (for CORREO and TELEFONO, which are not uppercased) is stored on
the created student record. -/
theorem c10_theorem (db : DB) (vis : List Estudiante) (r : Row)
    (e : Estudiante) (h : processRow db vis r = Except.ok e) :
    (r.lookup "TIPO_DOC" = some none → e.tipo_documento = "NAN") ∧
    (r.lookup "NOMBRE_APELLIDO" = some none → e.nombre_apellido = some "NAN") ∧
    (r.lookup "GENERO" = some none → e.genero = some "NAN") ∧
    (r.lookup "CORREO" = some none → e.correo = "nan") ∧
    (r.lookup "TELEFONO" = some none → e.telefono = "nan") := by
  obtain ⟨-, fnd, -, rfl⟩ := processRow_ok_shape db vis r e h
  refine ⟨?_, ?_, ?_, ?_, ?_⟩
  · intro hb
    show tipoOf r = "NAN"
    unfold tipoOf pyGet
    rw [hb]
    decide
  · intro hb
    show setUpperOpt (nombreOf r) = some "NAN"
    unfold nombreOf pyGet
    rw [hb]
    decide
  · intro hb
    show setUpperOpt (generoOf r) = some "NAN"
    unfold generoOf pyGet
    rw [hb]
    decide
  · intro hb
    show correoOf r = "nan"
    unfold correoOf pyGet
    rw [hb]
    decide
  · intro hb
    show telefonoOf r = "nan"
    unfold telefonoOf pyGet
    rw [hb]
    decide

/-- C10, witness: a valid row with all five optional cells blank creates a
student storing "NAN"/"nan" literals. -/
theorem c10_witness :
    stC10.tipo_documento = "NAN" ∧ stC10.nombre_apellido = some "NAN" ∧
    stC10.genero = some "NAN" ∧ stC10.correo = "nan" ∧ stC10.telefono = "nan" := by
  have h := c10_theorem dbW [] rowC10 stC10 (by decide)
  exact ⟨h.1 (by decide), h.2.1 (by decide), h.2.2.1 (by decide),
    h.2.2.2.1 (by decide), h.2.2.2.2 (by decide)⟩

/-! ## Orchestrator-level lemmas -/

/-- `importFile` on a file with missing required columns: early fatal return. -/
theorem importFile_faltantes (db : DB) (f : XFile) (c : Option String)
    (h : (faltantesOf f).isEmpty = false) :
    importFile db f c =
      { exitos := 0, errores := [], db := db
        flashes := [(FlashCat.danger, faltanMsg (faltantesOf f))] } := by
  unfold importFile
  rw [h]
  simp

/-- `importFile` when the headers pass and the commit raises. -/
theorem importFile_commitFail (db : DB) (f : XFile) (m : String)
    (ex : Nat) (errs : List String) (st : List Estudiante)
    (hfal : (faltantesOf f).isEmpty = true)
    (hl : importLoop db f.rows 0 0 [] [] = (ex, errs, st)) (hex : 0 < ex) :
    importFile db f (some m) =
      { exitos := ex, errores := errs, db := db
        flashes := [(FlashCat.danger, criticoMsg m)] } := by
  unfold importFile
  rw [hfal, hl]
  simp [hex]

/-- `importFile` when the headers pass, at least one row staged, and the
commit succeeds. -/
theorem importFile_commitOk (db : DB) (f : XFile)
    (ex : Nat) (errs : List String) (st : List Estudiante)
    (hfal : (faltantesOf f).isEmpty = true)
    (hl : importLoop db f.rows 0 0 [] [] = (ex, errs, st)) (hex : 0 < ex) :
    importFile db f none =
      { exitos := ex, errores := errs
        db := { db with estudiantes := db.estudiantes ++ st }
        flashes := (FlashCat.success, okMsg ex) :: errFlashes errs } := by
  unfold importFile
  rw [hfal, hl]
  simp [hex]

/-- `importFile` when the headers pass and no row was staged: no commit. -/
theorem importFile_noCommit (db : DB) (f : XFile) (c : Option String)
    (errs : List String) (st : List Estudiante)
    (hfal : (faltantesOf f).isEmpty = true)
    (hl : importLoop db f.rows 0 0 [] [] = (0, errs, st)) :
    importFile db f c =
      { exitos := 0, errores := errs, db := db
        flashes := errFlashes errs } := by
  unfold importFile
  rw [hfal, hl]
  simp

/-! ## Claims C3, C6, C7, C9 -/

/-- The header list used by the witness files. -/
def colsW : List String :=
  ["NUMERO_DOC", "CODIGO_ALDEA", "NOMBRE_CARRERA", "TRAMO", "PERIODO", "TIPO_DOC"]

/-- A one-row file whose row is fully valid against `dbW`. -/
def fW : XFile := ⟨colsW, [rowW]⟩

/-- A file with noisy headers missing four required columns. -/
def fMissing : XFile := ⟨[" numero_doc ", "TRAMO"], [rowW]⟩

/-- A one-row file whose row references an unknown village. -/
def fBad : XFile := ⟨colsW, [rowC5]⟩

/-- C3: when the final batch commit fails after at least one row was staged,
the persistent store is untouched (the batch is discarded atomically) and
the single critical diagnostic is the only flash — no success message. -/
theorem c3_theorem (db : DB) (f : XFile) (m : String)
    (h : 0 < (importFile db f (some m)).exitos) :
    (importFile db f (some m)).db = db ∧
      (importFile db f (some m)).flashes = [(FlashCat.danger, criticoMsg m)] := by
  cases hfal : (faltantesOf f).isEmpty with
  | false =>
    rw [importFile_faltantes db f (some m) hfal] at h
    have hx : (0 : Nat) < 0 := h
    omega
  | true =>
    rcases hl : importLoop db f.rows 0 0 [] [] with ⟨ex, errs, st⟩
    by_cases hex : 0 < ex
    · rw [importFile_commitFail db f m ex errs st hfal hl hex]
      exact ⟨rfl, rfl⟩
    · have hex0 : ex = 0 := by omega
      subst hex0
      rw [importFile_noCommit db f (some m) errs st hfal hl] at h
      have hx : (0 : Nat) < 0 := h
      omega

/-- C3, witness: a fully valid one-row file whose commit raises yields an
unchanged store and exactly one critical flash. -/
theorem c3_witness :
    0 < (importFile dbW fW (some "disk full")).exitos ∧
    ((importFile dbW fW (some "disk full")).db = dbW ∧
      (importFile dbW fW (some "disk full")).flashes =
        [(FlashCat.danger, criticoMsg "disk full")]) :=
  ⟨by decide, c3_theorem dbW fW "disk full" (by decide)⟩

/-- C6: a file lacking a required header column is rejected wholesale before
any row is processed: zero rows validated, zero errors accumulated, store
unchanged, and the single fatal flash names the missing columns. -/
theorem c6_theorem (db : DB) (f : XFile) (c : Option String)
    (h : faltantesOf f ≠ []) :
    importFile db f c =
      { exitos := 0, errores := [], db := db
        flashes := [(FlashCat.danger, faltanMsg (faltantesOf f))] } := by
  apply importFile_faltantes
  cases hfe : faltantesOf f with
  | nil => exact absurd hfe h
  | cons a l => rfl

/-- C6, witness: headers " numero_doc " and "TRAMO" match NUMERO_DOC and
TRAMO case/whitespace-insensitively; the other three required columns are
reported missing and the file is rejected wholesale. -/
theorem c6_witness :
    faltantesOf fMissing = ["NOMBRE_CARRERA", "CODIGO_ALDEA", "PERIODO"] ∧
    importFile dbW fMissing none =
      { exitos := 0, errores := [], db := dbW
        flashes := [(FlashCat.danger, faltanMsg (faltantesOf fMissing))] } :=
  ⟨by decide, c6_theorem dbW fMissing none (by decide)⟩

/-- C7: the rendered report shows exactly `min n 10` diagnostics for an
error list of length `n`, and when `n > 10` the overflow notice counts the
remaining `n - 10` errors. -/
theorem c7_theorem (errs : List String) :
    (shownErrors errs).length = min errs.length 10 ∧
    (10 < errs.length →
      overflowNote errs =
        some ("... y " ++ toString (errs.length - 10) ++ " errores más.")) := by
  constructor
  · simp [shownErrors, List.length_take, Nat.min_comm]
  · intro h
    simp [overflowNote, h]

/-- Fifteen distinct diagnostics, for the C7 witness. -/
def errs15 : List String := (List.range 15).map (fun i => "e" ++ toString i)

/-- C7, witness: fifteen errors show ten diagnostics plus a notice counting
the remaining five. -/
theorem c7_witness :
    (10 < errs15.length ∧ (shownErrors errs15).length = min errs15.length 10) ∧
      overflowNote errs15 =
        some ("... y " ++ toString (errs15.length - 10) ++ " errores más.") :=
  ⟨⟨by decide, (c7_theorem errs15).1⟩, (c7_theorem errs15).2 (by decide)⟩

/-- C9: an import run that stages no row performs no commit: the persistent
store is unchanged and no success flash is emitted, only diagnostics. -/
theorem c9_theorem (db : DB) (f : XFile) (c : Option String)
    (h : (importFile db f c).exitos = 0) :
    (importFile db f c).db = db ∧
      ∀ fl ∈ (importFile db f c).flashes, fl.1 ≠ FlashCat.success := by
  cases hfal : (faltantesOf f).isEmpty with
  | false =>
    rw [importFile_faltantes db f c hfal]
    refine ⟨rfl, ?_⟩
    intro fl hfl
    simp at hfl
    rw [hfl]
    simp
  | true =>
    rcases hl : importLoop db f.rows 0 0 [] [] with ⟨ex, errs, st⟩
    by_cases hex : 0 < ex
    · cases c with
      | some m =>
        rw [importFile_commitFail db f m ex errs st hfal hl hex] at h
        have hx : ex = 0 := h
        omega
      | none =>
        rw [importFile_commitOk db f ex errs st hfal hl hex] at h
        have hx : ex = 0 := h
        omega
    · have hex0 : ex = 0 := by omega
      subst hex0
      rw [importFile_noCommit db f c errs st hfal hl]
      refine ⟨rfl, ?_⟩
      unfold errFlashes
      split
      · intro fl hfl
        simp at hfl
      · intro fl hfl
        simp at hfl
        rw [hfl]
        simp

/-- C9, witness: a one-row file whose row fails validation stages nothing,
leaves the store unchanged, and flashes no success message. -/
theorem c9_witness :
    (importFile dbW fBad none).exitos = 0 ∧
    ((importFile dbW fBad none).db = dbW ∧
      ∀ fl ∈ (importFile dbW fBad none).flashes, fl.1 ≠ FlashCat.success) :=
  ⟨by decide, c9_theorem dbW fBad none (by decide)⟩

/-! ## Idempotence machinery (C2) -/

/-- The diagnostics a re-imported fully-successful file accumulates: one
duplicate rejection per row, in order, tagged with the Excel line. -/
def dupMsgs (idx : Nat) : List Row → List String
  | [] => []
  | r :: rs => renderErr (idx + 2) (RowErr.yaExiste (ndocOf r)) :: dupMsgs (idx + 1) rs

/-- One loop step on a rejected row. -/
theorem importLoop_cons_error (db : DB) (r : Row) (rs : List Row)
    (idx ex : Nat) (errs : List String) (st : List Estudiante) (e : RowErr)
    (hp : processRow db (db.estudiantes ++ st) r = Except.error e) :
    importLoop db (r :: rs) idx ex errs st =
      importLoop db rs (idx + 1) ex (errs ++ [renderErr (idx + 2) e]) st := by
  rw [importLoop, hp]

/-- One loop step on an accepted row. -/
theorem importLoop_cons_ok (db : DB) (r : Row) (rs : List Row)
    (idx ex : Nat) (errs : List String) (st : List Estudiante) (e' : Estudiante)
    (hp : processRow db (db.estudiantes ++ st) r = Except.ok e') :
    importLoop db (r :: rs) idx ex errs st =
      importLoop db rs (idx + 1) (ex + 1) errs (st ++ [e']) := by
  rw [importLoop, hp]

/-- The loop's success counter grows by at most one per row. -/
theorem importLoop_exitos_le (db : DB) (rows : List Row) :
    ∀ (idx ex : Nat) (errs : List String) (st : List Estudiante),
      (importLoop db rows idx ex errs st).1 ≤ ex + rows.length := by
  induction rows with
  | nil =>
    intro idx ex errs st
    simp [importLoop]
  | cons r rs ih =>
    intro idx ex errs st
    unfold importLoop
    cases hp : processRow db (db.estudiantes ++ st) r with
    | error e =>
      have := ih (idx + 1) ex (errs ++ [renderErr (idx + 2) e]) st
      simp only [List.length_cons]
      omega
    | ok e' =>
      have := ih (idx + 1) (ex + 1) errs (st ++ [e'])
      simp only [List.length_cons]
      omega

/-- Students staged before the loop are still staged after it. -/
theorem importLoop_staged_mono (db : DB) (rows : List Row) :
    ∀ (idx ex : Nat) (errs : List String) (st : List Estudiante),
      ∀ x ∈ st, x ∈ (importLoop db rows idx ex errs st).2.2 := by
  induction rows with
  | nil =>
    intro idx ex errs st x hx
    simpa [importLoop] using hx
  | cons r rs ih =>
    intro idx ex errs st x hx
    unfold importLoop
    cases hp : processRow db (db.estudiantes ++ st) r with
    | error e => exact ih (idx + 1) ex (errs ++ [renderErr (idx + 2) e]) st x hx
    | ok e' =>
      exact ih (idx + 1) (ex + 1) errs (st ++ [e']) x (by simp [hx])

/-- If every row of the run succeeded (the counter reached its bound), then
every row passed the five checks and the final staged batch holds a student
carrying that row's normalized document number and type. -/
theorem importLoop_all_ok (db : DB) (rows : List Row) :
    ∀ (idx ex : Nat) (errs : List String) (st : List Estudiante),
      (importLoop db rows idx ex errs st).1 = ex + rows.length →
      ∀ r ∈ rows, (∃ fnd, checkRow db r = Except.ok fnd) ∧
        ∃ e ∈ (importLoop db rows idx ex errs st).2.2,
          e.numero_documento = ndocOf r ∧ e.tipo_documento = tipoOf r := by
  induction rows with
  | nil =>
    intro idx ex errs st h r hr
    cases hr
  | cons r0 rs ih =>
    intro idx ex errs st h r hr
    cases hp : processRow db (db.estudiantes ++ st) r0 with
    | error e =>
      rw [importLoop_cons_error db r0 rs idx ex errs st e hp] at h
      have hle := importLoop_exitos_le db rs (idx + 1) ex
        (errs ++ [renderErr (idx + 2) e]) st
      simp only [List.length_cons] at h
      omega
    | ok e' =>
      rw [importLoop_cons_ok db r0 rs idx ex errs st e' hp] at h ⊢
      simp only [List.length_cons] at h
      have h' : (importLoop db rs (idx + 1) (ex + 1) errs (st ++ [e'])).1 =
          (ex + 1) + rs.length := by omega
      rcases List.mem_cons.mp hr with rfl | hr'
      · obtain ⟨-, fnd, hcr, he⟩ := processRow_ok_shape db _ r e' hp
        refine ⟨⟨fnd, hcr⟩, e', ?_, ?_, ?_⟩
        · exact importLoop_staged_mono db rs (idx + 1) (ex + 1) errs
            (st ++ [e']) e' (by simp)
        · rw [he]
          rfl
        · rw [he]
          rfl
      · exact ih (idx + 1) (ex + 1) errs (st ++ [e']) h' r hr'

/-- If every row passes the five checks against `db` and the committed
student table already holds its (number, type) pair, the loop rejects every
row as a duplicate, stages nothing, and counts no success. -/
theorem importLoop_all_dup (db : DB) (rows : List Row)
    (hall : ∀ r ∈ rows, (∃ fnd, checkRow db r = Except.ok fnd) ∧
      ∃ s ∈ db.estudiantes,
        s.numero_documento = ndocOf r ∧ s.tipo_documento = tipoOf r) :
    ∀ (idx ex : Nat) (errs : List String) (st : List Estudiante),
      importLoop db rows idx ex errs st = (ex, errs ++ dupMsgs idx rows, st) := by
  induction rows with
  | nil =>
    intro idx ex errs st
    simp [importLoop, dupMsgs]
  | cons r0 rs ih =>
    intro idx ex errs st
    obtain ⟨⟨fnd, hcr⟩, s, hsmem, h1, h2⟩ := hall r0 (by simp)
    have hdup : processRow db (db.estudiantes ++ st) r0 =
        Except.error (RowErr.yaExiste (ndocOf r0)) :=
      processRow_dup db _ r0 fnd hcr ⟨s, List.mem_append_left _ hsmem, h1, h2⟩
    rw [importLoop_cons_error db r0 rs idx ex errs st _ hdup]
    rw [ih (fun r hr => hall r (by simp [hr])) (idx + 1) ex
      (errs ++ [renderErr (idx + 2) (RowErr.yaExiste (ndocOf r0))]) st]
    simp [dupMsgs]

/-- C2: if a first import of file `f` validates and commits every row
(success count equals the row count), then immediately re-importing `f`
succeeds on no row (success count 0), leaves the store exactly as the first
run left it (no student is inserted twice), and rejects every row with its
duplicate diagnostic. -/
theorem c2_theorem (db : DB) (f : XFile)
    (h : (importFile db f none).exitos = f.rows.length) :
    (importFile (importFile db f none).db f none).exitos = 0 ∧
    (importFile (importFile db f none).db f none).db = (importFile db f none).db ∧
    (importFile (importFile db f none).db f none).errores = dupMsgs 0 f.rows := by
  cases hfal : (faltantesOf f).isEmpty with
  | false =>
    have e1 := importFile_faltantes db f none hfal
    have hd1 : (importFile db f none).db = db := by rw [e1]
    have hx : (importFile db f none).exitos = 0 := by rw [e1]
    have hlen : f.rows.length = 0 := by omega
    have hrows : f.rows = [] := List.length_eq_zero.mp hlen
    rw [hd1, e1]
    refine ⟨rfl, rfl, ?_⟩
    rw [hrows]
    rfl
  | true =>
    rcases hl : importLoop db f.rows 0 0 [] [] with ⟨ex, errs, st⟩
    by_cases hex : 0 < ex
    · have e1 := importFile_commitOk db f ex errs st hfal hl hex
      have hd1 : (importFile db f none).db =
          { db with estudiantes := db.estudiantes ++ st } := by rw [e1]
      have hx : (importFile db f none).exitos = ex := by rw [e1]
      have hexlen : ex = f.rows.length := by omega
      have hloop1 : (importLoop db f.rows 0 0 [] []).1 = 0 + f.rows.length := by
        rw [hl]
        simpa using hexlen
      have hall1 := importLoop_all_ok db f.rows 0 0 [] [] hloop1
      have hall2 : ∀ r ∈ f.rows,
          (∃ fnd, checkRow { db with estudiantes := db.estudiantes ++ st } r =
            Except.ok fnd) ∧
          ∃ s ∈ ({ db with estudiantes := db.estudiantes ++ st } : DB).estudiantes,
            s.numero_documento = ndocOf r ∧ s.tipo_documento = tipoOf r := by
        intro r hr
        obtain ⟨⟨fnd, hcr⟩, e, hemem, h1, h2⟩ := hall1 r hr
        have hest : e ∈ st := by
          rw [hl] at hemem
          exact hemem
        constructor
        · refine ⟨fnd, ?_⟩
          rw [checkRow_eq_of_catalogs db
            { db with estudiantes := db.estudiantes ++ st } r rfl rfl rfl rfl]
          exact hcr
        · exact ⟨e, List.mem_append_right _ hest, h1, h2⟩
      have hloop2 := importLoop_all_dup
        { db with estudiantes := db.estudiantes ++ st } f.rows hall2 0 0 [] []
      have e2 := importFile_noCommit
        { db with estudiantes := db.estudiantes ++ st } f none
        (([] : List String) ++ dupMsgs 0 f.rows) [] hfal hloop2
      rw [hd1, e2]
      exact ⟨rfl, rfl, by simp⟩
    · have hex0 : ex = 0 := by omega
      subst hex0
      have e1 := importFile_noCommit db f none errs st hfal hl
      have hd1 : (importFile db f none).db = db := by rw [e1]
      have hx : (importFile db f none).exitos = 0 := by rw [e1]
      have hlen : f.rows.length = 0 := by omega
      have hrows : f.rows = [] := List.length_eq_zero.mp hlen
      have hl0 : importLoop db f.rows 0 0 [] [] = (0, [], []) := by
        rw [hrows]
        rfl
      have e1' := importFile_noCommit db f none [] [] hfal hl0
      rw [hd1, e1']
      refine ⟨rfl, rfl, ?_⟩
      rw [hrows]
      rfl

/-- C2, witness: importing the one-row file `fW` into `dbW` succeeds fully;
re-importing it succeeds on zero rows, changes nothing, and reports the
single duplicate diagnostic. -/
theorem c2_witness :
    (importFile dbW fW none).exitos = fW.rows.length ∧
    ((importFile (importFile dbW fW none).db fW none).exitos = 0 ∧
      (importFile (importFile dbW fW none).db fW none).db =
        (importFile dbW fW none).db ∧
      (importFile (importFile dbW fW none).db fW none).errores =
        dupMsgs 0 fW.rows) :=
  ⟨by decide, c2_theorem dbW fW (by decide)⟩

end SGC
